import Mathlib

/-!
Shallow embedding of the scheduling coordinator of VacationMonitor-Web:
the distributed lease lock (`DistributedLockService` in
`src/services/distributed-lock.service.js`) and the scheduler loop
(`SchedulerService.tick` / `triggerManualRun` in
`src/services/scheduler.service.js`).

Times are integer milliseconds since the epoch (the JS code compares
`Date` objects, which compare by their millisecond value).  Each store
interaction of one lock operation is driven by a `StoreEnv` describing
what the underlying Cosmos container does during that operation
(unavailable, read error, or a successful read of the current document
together with whether the subsequent write succeeds).  The operation
returns the new local `lockHeld` flag and the store write it performed,
which `applyEffect` folds back into the store contents.
-/

namespace VacationMonitor

/-- The lease document stored in the jobs container
(`id = "scheduler-lock"`, `partitionKey = "scheduler"`); only the fields
the code reads or writes are modelled. -/
structure LockDoc where
  leasedBy : String
  leaseExpiresAt : Int
  lastRenewed : Int
  createdAt : Int
deriving Repr, DecidableEq

/-- What the store does during one lock operation:
`unavailable` — `getJobsContainer()` returns null;
`readError` — the point read throws a non-404 error;
`ok doc writeOk` — the read succeeds and yields `doc` (`none` = 404 /
missing document), and a subsequent write (upsert or delete), if the
operation attempts one, succeeds iff `writeOk`. -/
inductive StoreEnv where
  | unavailable : StoreEnv
  | readError : StoreEnv
  | ok : Option LockDoc → Bool → StoreEnv
deriving Repr, DecidableEq

/-- The store write performed by one lock operation. -/
inductive Effect where
  | noWrite : Effect
  | upsert : LockDoc → Effect
  | delete : Effect
deriving Repr, DecidableEq

/-- `this.lockDurationSeconds = 360` in the constructor. -/
def lockDurationSeconds : Int := 360

/-- The fresh document `acquireLock` upserts: this instance as holder,
expiry `now + lockDurationSeconds * 1000` ms, `createdAt` carried over
from the old document when present (`lockDoc?.createdAt || now`). -/
def newLockDoc (inst : String) (now : Int) (old : Option LockDoc) : LockDoc :=
  { leasedBy := inst
    leaseExpiresAt := now + lockDurationSeconds * 1000
    lastRenewed := now
    createdAt := match old with | some d => d.createdAt | none => now }

/-- Result of `acquireLock`: the returned boolean, the new local
`lockHeld` flag, and the store write performed. -/
structure AcquireResult where
  result : Bool
  lockHeld : Bool
  effect : Effect
deriving Repr, DecidableEq

/-- Result of `renewLock` / `releaseLock` (which return no value): the
new local `lockHeld` flag and the store write performed. -/
structure LockOpResult where
  lockHeld : Bool
  effect : Effect
deriving Repr, DecidableEq

/-- `DistributedLockService.acquireLock()`.  `inst` is
`this.instanceId`, `held` the `this.lockHeld` flag on entry, `now` the
`new Date()` taken at the top.  Container unavailable returns true with
no state change; a non-404 read error is rethrown into the outer catch,
which returns true (fail-open).  A live document (`leaseExpiresAt > now`)
owned by us returns true setting the flag, owned by another returns
false; otherwise the fresh document is upserted (a failed upsert is
caught and returns false). -/
def acquireLock (inst : String) (held : Bool) (now : Int) (env : StoreEnv) : AcquireResult :=
  match env with
  | .unavailable => ⟨true, held, .noWrite⟩
  | .readError => ⟨true, held, .noWrite⟩
  | .ok (some d) writeOk =>
    if now < d.leaseExpiresAt then
      if d.leasedBy = inst then ⟨true, true, .noWrite⟩
      else ⟨false, false, .noWrite⟩
    else
      if writeOk then ⟨true, true, .upsert (newLockDoc inst now (some d))⟩
      else ⟨false, false, .noWrite⟩
  | .ok none writeOk =>
    if writeOk then ⟨true, true, .upsert (newLockDoc inst now none)⟩
    else ⟨false, false, .noWrite⟩

/-- `DistributedLockService.renewLock()`.  Immediate return when the
flag is not set; container unavailable, a missing document (404), a
read error, a holder mismatch, or a failed upsert all clear the flag
without writing; only when `leasedBy` still equals this instance is the
document rewritten with the extended expiry. -/
def renewLock (inst : String) (held : Bool) (now : Int) (env : StoreEnv) : LockOpResult :=
  match held, env with
  | false, _ => ⟨false, .noWrite⟩
  | true, .unavailable => ⟨false, .noWrite⟩
  | true, .readError => ⟨false, .noWrite⟩
  | true, .ok none _ => ⟨false, .noWrite⟩
  | true, .ok (some d) writeOk =>
    if d.leasedBy = inst then
      if writeOk then
        ⟨true, .upsert { d with leaseExpiresAt := now + lockDurationSeconds * 1000,
                                lastRenewed := now }⟩
      else ⟨false, .noWrite⟩
    else ⟨false, .noWrite⟩

/-- `DistributedLockService.releaseLock()`.  Immediate return when the
flag is not set.  The read is not guarded against 404, so a missing
document lands in the catch block, which changes nothing — as does an
unavailable container, a read error, or a failed delete.  Only a
successful delete of a document still held by this instance clears the
flag; on a holder mismatch there is no else-branch, so the flag stays
true. -/
def releaseLock (inst : String) (held : Bool) (env : StoreEnv) : LockOpResult :=
  match held, env with
  | false, _ => ⟨false, .noWrite⟩
  | true, .unavailable => ⟨true, .noWrite⟩
  | true, .readError => ⟨true, .noWrite⟩
  | true, .ok none _ => ⟨true, .noWrite⟩
  | true, .ok (some d) deleteOk =>
    if d.leasedBy = inst then
      if deleteOk then ⟨false, .delete⟩
      else ⟨true, .noWrite⟩
    else ⟨true, .noWrite⟩

/-- `DistributedLockService.isLockHeld()` — returns the local flag. -/
def isLockHeld (held : Bool) : Bool := held

/-- Fold a lock operation's write back into the store contents. -/
def applyEffect (doc : Option LockDoc) : Effect → Option LockDoc
  | .noWrite => doc
  | .upsert d => some d
  | .delete => none

/-- One instance together with the shared store: the local `lockHeld`
flag and the lease document currently in the container. -/
structure LockSys where
  held : Bool
  store : Option LockDoc
deriving Repr, DecidableEq

/-- A reachable store with no interference: reads return the current
document and writes succeed. -/
def healthy (s : LockSys) : StoreEnv := StoreEnv.ok s.store true

/-- `acquireLock` against the healthy shared store: the returned boolean
and the new system state. -/
def acquireStep (inst : String) (now : Int) (s : LockSys) : Bool × LockSys :=
  let r := acquireLock inst s.held now (healthy s)
  (r.result, ⟨r.lockHeld, applyEffect s.store r.effect⟩)

/-- `renewLock` against the healthy shared store. -/
def renewStep (inst : String) (now : Int) (s : LockSys) : LockSys :=
  let r := renewLock inst s.held now (healthy s)
  ⟨r.lockHeld, applyEffect s.store r.effect⟩

/-- `releaseLock` against the healthy shared store. -/
def releaseStep (inst : String) (s : LockSys) : LockSys :=
  let r := releaseLock inst s.held (healthy s)
  ⟨r.lockHeld, applyEffect s.store r.effect⟩

/-- A sequence of `renewLock` calls at the given times. -/
def renewMany (inst : String) (ts : List Int) (s : LockSys) : LockSys :=
  ts.foldl (fun s t => renewStep inst t s) s

/-- The instance believes it holds the lease and the stored record names
it as holder. -/
def ownsLease (inst : String) (s : LockSys) : Prop :=
  s.held = true ∧ ∃ d, s.store = some d ∧ d.leasedBy = inst

/-! Scheduler loop (`SchedulerService` in
`src/services/scheduler.service.js`).  A work item is a search record
as consumed by `tick`; `getDueSearches(50)` returns at most 50 items
with `schedule.enabled` and `schedule.nextRun <= now`. -/

/-- The fields of a search record that `tick` reads
(`schedule.intervalHours` in hours, `schedule.nextRun` in ms). -/
structure WorkItem where
  id : String
  userId : String
  intervalHours : Int
  nextRun : Int
deriving Repr, DecidableEq

/-- A job descriptor sent to the Service Bus queue. -/
structure Job where
  searchId : String
  userId : String
  scheduleType : String
deriving Repr, DecidableEq

/-- The descriptor `tick` builds for a due search. -/
def jobOf (w : WorkItem) : Job := ⟨w.id, w.userId, "scheduled"⟩

/-- The patch `tick` writes for a dispatched search:
`schedule.nextRun = now + intervalHours * 60 * 60 * 1000` and
`lastRunAt = now`. -/
structure SchedPatch where
  searchId : String
  nextRun : Int
  lastRunAt : Int
deriving Repr, DecidableEq

/-- Build the update patch for one dispatched search at tick time `now`. -/
def patchOf (now : Int) (w : WorkItem) : SchedPatch :=
  ⟨w.id, now + w.intervalHours * 60 * 60 * 1000, now⟩

/-- `this.maxConsecutiveErrors = 10` in the constructor. -/
def maxConsecutiveErrors : Nat := 10

/-- Scheduler instance state: `isRunning`, whether `intervalId` is set,
`consecutiveErrors`, `lastTickTime`. -/
structure SchedState where
  isRunning : Bool
  timerSet : Bool
  consecutiveErrors : Nat
  lastTickTime : Option Int
deriving Repr, DecidableEq

/-- Environment of one tick: the boolean `acquireLock` returned, whether
`getDueSearches` succeeded and what it returned, and whether the batch
enqueue and the timestamp updates succeeded (a false means a thrown
error landing in the catch block). -/
structure TickEnv where
  hasLock : Bool
  queryOk : Bool
  dueSearches : List WorkItem
  enqueueOk : Bool
  updateOk : Bool
deriving Repr, DecidableEq

/-- Observable outcome of one tick: the new scheduler state, the job
descriptors enqueued, the patches written, and whether `renewLock` /
`releaseLock` were called. -/
structure TickResult where
  state : SchedState
  enqueued : List Job
  patches : List SchedPatch
  renewCalled : Bool
  releaseCalled : Bool
deriving Repr, DecidableEq

/-- The catch block of `tick`: increment `consecutiveErrors`; once it
reaches `maxConsecutiveErrors`, set `isRunning = false`, clear the
timer, and release the lock best-effort.  `enq` carries jobs already
enqueued before the throw. -/
def tickFail (s : SchedState) (enq : List Job) : TickResult :=
  let c := s.consecutiveErrors + 1
  if maxConsecutiveErrors ≤ c then
    ⟨{ s with isRunning := false, timerSet := false, consecutiveErrors := c },
      enq, [], false, true⟩
  else
    ⟨{ s with consecutiveErrors := c }, enq, [], false, false⟩

/-- `SchedulerService.tick()` at time `now`: return immediately when not
running; skip (without counting an error) when the lock is not held;
otherwise query due searches, enqueue one batch of job descriptors,
write each search's `nextRun`/`lastRunAt` patch, reset the error
counter, stamp `lastTickTime`, and renew the lock.  Any throw along the
way goes through `tickFail`. -/
def tick (s : SchedState) (now : Int) (env : TickEnv) : TickResult :=
  if s.isRunning = false then ⟨s, [], [], false, false⟩
  else if env.hasLock = false then ⟨s, [], [], false, false⟩
  else if env.queryOk = false then tickFail s []
  else if env.dueSearches = [] then
    ⟨{ s with consecutiveErrors := 0, lastTickTime := some now }, [], [], true, false⟩
  else if env.enqueueOk = false then tickFail s []
  else if env.updateOk = false then tickFail s (env.dueSearches.map jobOf)
  else
    ⟨{ s with consecutiveErrors := 0, lastTickTime := some now },
      env.dueSearches.map jobOf, env.dueSearches.map (patchOf now), true, false⟩

/-- `cosmosDBService.getSearch(searchId, userId)` over an in-memory list
of search records: the first record matching both id and owner. -/
def getSearch (store : List WorkItem) (searchId userId : String) : Option WorkItem :=
  store.find? (fun w => w.id == searchId && w.userId == userId)

/-- Outcome of `triggerManualRun`: the not-found throw, a dispatch
failure propagated to the caller, or the returned message id. -/
inductive ManualOutcome where
  | notFound : ManualOutcome
  | dispatchFailed : ManualOutcome
  | enqueued : String → ManualOutcome
deriving Repr, DecidableEq

/-- `SchedulerService.triggerManualRun(searchId, userId)`: verify the
search exists for this owner (throw not-found otherwise), then enqueue a
single `scheduleType: "manual"` descriptor.  Returns the outcome, the
descriptors dispatched, and the search store afterwards — the function
performs no store write, so the store is returned unchanged. -/
def triggerManualRun (store : List WorkItem) (searchId userId : String)
    (enqueueOk : Bool) (msgId : String) :
    ManualOutcome × List Job × List WorkItem :=
  match getSearch store searchId userId with
  | none => (.notFound, [], store)
  | some _ =>
    if enqueueOk then (.enqueued msgId, [⟨searchId, userId, "manual"⟩], store)
    else (.dispatchFailed, [], store)

end VacationMonitor

namespace VacationMonitor

/-- C1: with the store reachable (read and write both succeed) and the
lease absent or expired (`leaseExpiresAt ≤ now`), `acquireLock` returns
true and upserts a record holding this instance with
`leaseExpiresAt = now + 360 s`. -/
theorem C1_acquire_free_succeeds (inst : String) (held : Bool) (now : Int)
    (doc : Option LockDoc)
    (h : doc = none ∨ ∃ d, doc = some d ∧ d.leaseExpiresAt ≤ now) :
    ∃ d', acquireLock inst held now (StoreEnv.ok doc true) = ⟨true, true, .upsert d'⟩
      ∧ d'.leasedBy = inst ∧ d'.leaseExpiresAt = now + 360 * 1000 := by
  rcases h with h | ⟨d, hd, hexp⟩
  · subst h
    exact ⟨newLockDoc inst now none, rfl, rfl, rfl⟩
  · subst hd
    refine ⟨newLockDoc inst now (some d), ?_, rfl, rfl⟩
    simp [acquireLock, not_lt.mpr hexp]

/-- Witness for C1 at a concrete expired record. -/
theorem C1_acquire_free_succeeds_witness :
    ∃ d', acquireLock "instance-a" false 5000
        (StoreEnv.ok (some ⟨"instance-b", 4000, 0, 0⟩) true) = ⟨true, true, .upsert d'⟩
      ∧ d'.leasedBy = "instance-a" ∧ d'.leaseExpiresAt = 5000 + 360 * 1000 :=
  C1_acquire_free_succeeds "instance-a" false 5000
    (some ⟨"instance-b", 4000, 0, 0⟩) (Or.inr ⟨_, rfl, by decide⟩)

/-- C2: with the store reachable and an unexpired record
(`leaseExpiresAt > now`): if the holder is this instance, `acquireLock`
returns true without any store write (the expiry is not extended); if it
is another instance, it returns false (also without writing). -/
theorem C2_acquire_live_lease (inst : String) (held : Bool) (now : Int)
    (d : LockDoc) (wk : Bool) (hlive : now < d.leaseExpiresAt) :
    (d.leasedBy = inst →
      acquireLock inst held now (StoreEnv.ok (some d) wk) = ⟨true, true, .noWrite⟩) ∧
    (d.leasedBy ≠ inst →
      acquireLock inst held now (StoreEnv.ok (some d) wk) = ⟨false, false, .noWrite⟩) := by
  constructor
  · intro hown
    simp [acquireLock, hlive, hown]
  · intro hother
    simp [acquireLock, hlive, hother]

/-- Witness for C2: re-acquire by the holder, and a foreign unexpired
lease, at concrete inputs. -/
theorem C2_acquire_live_lease_witness :
    acquireLock "instance-a" false 1000 (StoreEnv.ok (some ⟨"instance-a", 2000, 0, 0⟩) true)
        = ⟨true, true, .noWrite⟩ ∧
    acquireLock "instance-a" false 1000 (StoreEnv.ok (some ⟨"instance-b", 2000, 0, 0⟩) true)
        = ⟨false, false, .noWrite⟩ :=
  ⟨(C2_acquire_live_lease "instance-a" false 1000 ⟨"instance-a", 2000, 0, 0⟩ true
      (by decide)).1 (by decide),
   (C2_acquire_live_lease "instance-a" false 1000 ⟨"instance-b", 2000, 0, 0⟩ true
      (by decide)).2 (by decide)⟩

/-- C6: `renewLock` by an instance whose local flag is clear performs no
store write; a believed holder finding the record missing, or showing a
different `leasedBy`, clears the local flag and performs no store write
(the record is not recreated). -/
theorem C6_renew_frame (inst : String) (now : Int) (env : StoreEnv) (wk wk' : Bool)
    (d : LockDoc) (hd : d.leasedBy ≠ inst) :
    renewLock inst false now env = ⟨false, .noWrite⟩ ∧
    renewLock inst true now (StoreEnv.ok none wk) = ⟨false, .noWrite⟩ ∧
    renewLock inst true now (StoreEnv.ok (some d) wk') = ⟨false, .noWrite⟩ := by
  refine ⟨rfl, rfl, ?_⟩
  simp [renewLock, hd]

/-- Witness for C6 at concrete inputs: a non-believer, a missing record,
and a record held by another instance. -/
theorem C6_renew_frame_witness :
    renewLock "instance-a" false 0 StoreEnv.unavailable = ⟨false, .noWrite⟩ ∧
    renewLock "instance-a" true 0 (StoreEnv.ok none true) = ⟨false, .noWrite⟩ ∧
    renewLock "instance-a" true 0 (StoreEnv.ok (some ⟨"instance-b", 9000, 0, 0⟩) true)
      = ⟨false, .noWrite⟩ :=
  C6_renew_frame "instance-a" 0 StoreEnv.unavailable true true
    ⟨"instance-b", 9000, 0, 0⟩ (by decide)

/-- C9: `releaseLock` by a believed holder that finds a different
`leasedBy`, a missing record, or a failing read, neither deletes the
record nor clears the local flag — `isLockHeld` still reports true
afterwards. -/
theorem C9_release_keeps_flag (inst : String) (wk wk' : Bool) (d : LockDoc)
    (hd : d.leasedBy ≠ inst) :
    releaseLock inst true (StoreEnv.ok (some d) wk) = ⟨true, .noWrite⟩ ∧
    releaseLock inst true (StoreEnv.ok none wk') = ⟨true, .noWrite⟩ ∧
    releaseLock inst true StoreEnv.readError = ⟨true, .noWrite⟩ ∧
    isLockHeld (releaseLock inst true (StoreEnv.ok (some d) wk)).lockHeld = true := by
  have hmain : releaseLock inst true (StoreEnv.ok (some d) wk) = ⟨true, .noWrite⟩ := by
    simp [releaseLock, hd]
  exact ⟨hmain, rfl, rfl, by rw [hmain]; rfl⟩

/-- Witness for C9: a record reclaimed by another instance, at concrete
inputs. -/
theorem C9_release_keeps_flag_witness :
    releaseLock "instance-a" true (StoreEnv.ok (some ⟨"instance-b", 9000, 0, 0⟩) true)
      = ⟨true, .noWrite⟩ ∧
    releaseLock "instance-a" true (StoreEnv.ok none true) = ⟨true, .noWrite⟩ ∧
    releaseLock "instance-a" true StoreEnv.readError = ⟨true, .noWrite⟩ ∧
    isLockHeld (releaseLock "instance-a" true
        (StoreEnv.ok (some ⟨"instance-b", 9000, 0, 0⟩) true)).lockHeld = true :=
  C9_release_keeps_flag "instance-a" true true ⟨"instance-b", 9000, 0, 0⟩ (by decide)

/-- C10 counterexample: the claim as stated says every fail-open
`acquireLock` leaves `isLockHeld` reporting false and a subsequent
`renewLock` a no-op.  With the local flag already true (the instance
acquired earlier, then the container became unavailable), the fail-open
path returns true but leaves the flag true, and a subsequent `renewLock`
against a reachable store rewrites the record (extends the expiry). -/
theorem C10_counterexample :
    (acquireLock "instance-a" true 0 StoreEnv.unavailable).result = true ∧
    (acquireLock "instance-a" true 0 StoreEnv.unavailable).effect = .noWrite ∧
    isLockHeld (acquireLock "instance-a" true 0 StoreEnv.unavailable).lockHeld ≠ false ∧
    (renewLock "instance-a"
        (acquireLock "instance-a" true 0 StoreEnv.unavailable).lockHeld 0
        (StoreEnv.ok (some ⟨"instance-a", 9000, 0, 0⟩) true)).effect ≠ .noWrite := by
  refine ⟨rfl, rfl, by decide, ?_⟩
  decide

/-- C10 amended: a fail-open `acquireLock` (container unavailable or
non-404 read error) returns true with no store write and leaves the
local flag unchanged — it is never set to true by these paths; in
particular, when the flag was clear beforehand, a subsequent `renewLock`
is a no-op (no store write) and `isLockHeld` reports false despite the
successful acquire result. -/
theorem C10_fail_open_flag (inst : String) (held : Bool) (now now' : Int)
    (env env' : StoreEnv)
    (h : env = StoreEnv.unavailable ∨ env = StoreEnv.readError) :
    (acquireLock inst held now env).result = true ∧
    (acquireLock inst held now env).effect = .noWrite ∧
    (acquireLock inst held now env).lockHeld = held ∧
    (held = false →
      renewLock inst (acquireLock inst held now env).lockHeld now' env'
          = ⟨false, .noWrite⟩ ∧
      isLockHeld (acquireLock inst held now env).lockHeld = false) := by
  rcases h with h | h <;> subst h <;>
    exact ⟨rfl, rfl, rfl, fun hf => by subst hf; exact ⟨rfl, rfl⟩⟩

/-- Witness for the amended C10 at concrete inputs with the flag clear. -/
theorem C10_fail_open_flag_witness :
    (acquireLock "instance-a" false 0 StoreEnv.readError).result = true ∧
    (acquireLock "instance-a" false 0 StoreEnv.readError).effect = .noWrite ∧
    (acquireLock "instance-a" false 0 StoreEnv.readError).lockHeld = false ∧
    (false = false →
      renewLock "instance-a" (acquireLock "instance-a" false 0 StoreEnv.readError).lockHeld 0
          (StoreEnv.ok (some ⟨"instance-a", 9000, 0, 0⟩) true) = ⟨false, .noWrite⟩ ∧
      isLockHeld (acquireLock "instance-a" false 0 StoreEnv.readError).lockHeld = false) :=
  C10_fail_open_flag "instance-a" false 0 0 StoreEnv.readError
    (StoreEnv.ok (some ⟨"instance-a", 9000, 0, 0⟩) true) (Or.inr rfl)

/-- Helper: `renewLock` by the recorded holder against a healthy store
keeps ownership: the flag stays set and the rewritten record still names
this instance. -/
theorem renewStep_preserves_owns (inst : String) (t : Int) (s : LockSys)
    (h : ownsLease inst s) : ownsLease inst (renewStep inst t s) := by
  obtain ⟨hh, d, hs, hl⟩ := h
  refine ⟨?_, { d with leaseExpiresAt := t + lockDurationSeconds * 1000,
                        lastRenewed := t }, ?_, hl⟩ <;>
    simp [renewStep, healthy, hs, hh, renewLock, hl, applyEffect]

/-- Helper: a sequence of renewals against a healthy store keeps
ownership. -/
theorem renewMany_preserves_owns (inst : String) (ts : List Int) (s : LockSys)
    (h : ownsLease inst s) : ownsLease inst (renewMany inst ts s) := by
  induction ts generalizing s with
  | nil => exact h
  | cons t ts ih => exact ih _ (renewStep_preserves_owns inst t s h)

/-- Helper: `releaseLock` by the recorded holder against a healthy store
deletes the record. -/
theorem releaseStep_owns_deletes (inst : String) (s : LockSys)
    (h : ownsLease inst s) : (releaseStep inst s).store = none := by
  obtain ⟨hh, d, hs, hl⟩ := h
  simp [releaseStep, healthy, hs, hh, releaseLock, hl, applyEffect]

/-- Helper: `acquireLock` against a healthy store whose record is absent
or expired returns true and leaves this instance owning the lease. -/
theorem acquireStep_free_owns (inst : String) (t₀ : Int) (s₀ : LockSys)
    (h : s₀.store = none ∨ ∃ d, s₀.store = some d ∧ d.leaseExpiresAt ≤ t₀) :
    (acquireStep inst t₀ s₀).1 = true ∧ ownsLease inst (acquireStep inst t₀ s₀).2 := by
  rcases h with h | ⟨d, hd, hexp⟩
  · refine ⟨?_, ?_, newLockDoc inst t₀ none, ?_, rfl⟩ <;>
      simp [acquireStep, healthy, h, acquireLock, applyEffect]
  · refine ⟨?_, ?_, newLockDoc inst t₀ (some d), ?_, rfl⟩ <;>
      simp [acquireStep, healthy, hd, acquireLock, not_lt.mpr hexp, applyEffect]

/-- C8: acquiring an absent or expired lease against a reachable,
uncontended store succeeds, and after any number of renewals followed by
a release, no lease record remains in the store. -/
theorem C8_roundtrip (inst : String) (s₀ : LockSys) (t₀ : Int) (ts : List Int)
    (h : s₀.store = none ∨ ∃ d, s₀.store = some d ∧ d.leaseExpiresAt ≤ t₀) :
    (acquireStep inst t₀ s₀).1 = true ∧
    (releaseStep inst (renewMany inst ts (acquireStep inst t₀ s₀).2)).store = none := by
  obtain ⟨hres, howns⟩ := acquireStep_free_owns inst t₀ s₀ h
  exact ⟨hres, releaseStep_owns_deletes inst _ (renewMany_preserves_owns inst ts _ howns)⟩

/-- Witness for C8: acquire at time 0 on an empty store, renew twice,
release — the store ends with no record. -/
theorem C8_roundtrip_witness :
    (acquireStep "instance-a" 0 ⟨false, none⟩).1 = true ∧
    (releaseStep "instance-a"
      (renewMany "instance-a" [100, 200]
        (acquireStep "instance-a" 0 ⟨false, none⟩).2)).store = none :=
  C8_roundtrip "instance-a" ⟨false, none⟩ 0 [100, 200] (Or.inl rfl)

/-- Helper: a tick on a scheduler that is not running changes nothing
and performs no work. -/
theorem tick_not_running (s : SchedState) (now : Int) (env : TickEnv)
    (h : s.isRunning = false) : tick s now env = ⟨s, [], [], false, false⟩ := by
  simp [tick, h]

/-- C3: a fail-open `acquireLock` (container unavailable, or read error
other than 404) returns true without writing the store — it is total,
nothing escapes its catch block — and the scheduler does not count this
outcome as an error: a tick whose acquisition yields this result and
whose remaining steps succeed ends with `consecutiveErrors = 0`. -/
theorem C3_fail_open (inst : String) (held : Bool) (now : Int) (env : StoreEnv)
    (h : env = StoreEnv.unavailable ∨ env = StoreEnv.readError) :
    (acquireLock inst held now env).result = true ∧
    (acquireLock inst held now env).effect = Effect.noWrite ∧
    (∀ (s : SchedState) (tnow : Int) (tenv : TickEnv),
      s.isRunning = true → tenv.hasLock = (acquireLock inst held now env).result →
      tenv.queryOk = true → tenv.enqueueOk = true → tenv.updateOk = true →
      (tick s tnow tenv).state.consecutiveErrors = 0) := by
  have hres : (acquireLock inst held now env).result = true := by
    rcases h with h | h <;> subst h <;> rfl
  have heff : (acquireLock inst held now env).effect = Effect.noWrite := by
    rcases h with h | h <;> subst h <;> rfl
  refine ⟨hres, heff, ?_⟩
  intro s tnow tenv hrun hlock hq he hu
  rw [hres] at hlock
  by_cases hd : tenv.dueSearches = [] <;>
    simp [tick, hrun, hlock, hq, he, hu, hd]

/-- Witness for C3: the container-unavailable path at concrete inputs,
followed by a successful empty tick. -/
theorem C3_fail_open_witness :
    (acquireLock "instance-a" false 0 StoreEnv.unavailable).result = true ∧
    (acquireLock "instance-a" false 0 StoreEnv.unavailable).effect = Effect.noWrite ∧
    (tick ⟨true, true, 3, none⟩ 0 ⟨true, true, [], true, true⟩).state.consecutiveErrors = 0 := by
  have h := C3_fail_open "instance-a" false 0 StoreEnv.unavailable (Or.inl rfl)
  exact ⟨h.1, h.2.1,
    h.2.2 ⟨true, true, 3, none⟩ 0 ⟨true, true, [], true, true⟩ rfl h.1.symm rfl rfl rfl⟩

/-- C4: a running tick holding the lock that finds `N ≥ 1` due searches
(at most the batch cap 50) and whose dispatch and updates succeed
enqueues exactly the `N` job descriptors in one batch and patches each
search with `nextRun = now + intervalHours` in ms (strictly after `now`
when `intervalHours` is positive) and `lastRunAt = now`. -/
theorem C4_tick_dispatch (s : SchedState) (now : Int) (env : TickEnv)
    (hrun : s.isRunning = true) (hlock : env.hasLock = true) (hq : env.queryOk = true)
    (hne : env.dueSearches ≠ []) (_hlim : env.dueSearches.length ≤ 50)
    (henq : env.enqueueOk = true) (hupd : env.updateOk = true) :
    (tick s now env).enqueued = env.dueSearches.map jobOf ∧
    (tick s now env).enqueued.length = env.dueSearches.length ∧
    (tick s now env).patches = env.dueSearches.map (patchOf now) ∧
    ∀ w ∈ env.dueSearches,
      (patchOf now w).nextRun = now + w.intervalHours * 60 * 60 * 1000 ∧
      (patchOf now w).lastRunAt = now ∧
      (0 < w.intervalHours → now < (patchOf now w).nextRun) := by
  refine ⟨?_, ?_, ?_, ?_⟩
  · simp [tick, hrun, hlock, hq, hne, henq, hupd]
  · simp [tick, hrun, hlock, hq, hne, henq, hupd]
  · simp [tick, hrun, hlock, hq, hne, henq, hupd]
  · intro w hw
    refine ⟨rfl, rfl, fun hih => ?_⟩
    simp only [patchOf]
    omega

/-- Witness for C4, the spec's example: 3 due items with
`intervalHours = 6` at tick time `T = 1000` — 3 jobs dispatched, each
patch has `nextRun = T + 6 h` and `lastRunAt = T`. -/
theorem C4_tick_dispatch_witness :
    (tick ⟨true, true, 0, none⟩ 1000
        ⟨true, true,
          [⟨"s1", "u1", 6, 0⟩, ⟨"s2", "u1", 6, 500⟩, ⟨"s3", "u2", 6, 900⟩],
          true, true⟩).enqueued.length = 3 ∧
    (tick ⟨true, true, 0, none⟩ 1000
        ⟨true, true,
          [⟨"s1", "u1", 6, 0⟩, ⟨"s2", "u1", 6, 500⟩, ⟨"s3", "u2", 6, 900⟩],
          true, true⟩).patches =
      [⟨"s1", 1000 + 6 * 60 * 60 * 1000, 1000⟩,
       ⟨"s2", 1000 + 6 * 60 * 60 * 1000, 1000⟩,
       ⟨"s3", 1000 + 6 * 60 * 60 * 1000, 1000⟩] := by
  have h := C4_tick_dispatch ⟨true, true, 0, none⟩ 1000
      ⟨true, true,
        [⟨"s1", "u1", 6, 0⟩, ⟨"s2", "u1", 6, 500⟩, ⟨"s3", "u2", 6, 900⟩],
        true, true⟩
      rfl rfl rfl (by decide) (by decide) rfl rfl
  exact ⟨h.2.1.trans (by decide), h.2.2.1.trans (by decide)⟩

/-- C5: a tick that throws while the error counter stands at 9 (the
10th consecutive exception) ends with `isRunning = false`, the timer
cleared, and the lock released; every later tick, at any time and in any
environment, changes nothing and performs no work. -/
theorem C5_threshold_disables (s : SchedState) (now : Int) (env : TickEnv)
    (hrun : s.isRunning = true) (hlock : env.hasLock = true)
    (hcount : s.consecutiveErrors = 9)
    (herr : env.queryOk = false ∨
      (env.dueSearches ≠ [] ∧ (env.enqueueOk = false ∨ env.updateOk = false))) :
    (tick s now env).state.isRunning = false ∧
    (tick s now env).state.timerSet = false ∧
    (tick s now env).releaseCalled = true ∧
    (∀ (now' : Int) (env' : TickEnv),
      tick (tick s now env).state now' env' =
        ⟨(tick s now env).state, [], [], false, false⟩) := by
  have hfail : ∀ enq : List Job, tickFail s enq =
      ⟨{ s with isRunning := false, timerSet := false, consecutiveErrors := 10 },
        enq, [], false, true⟩ := by
    intro enq
    simp [tickFail, hcount, maxConsecutiveErrors]
  have hstate : (tick s now env).state =
        { s with isRunning := false, timerSet := false, consecutiveErrors := 10 } ∧
      (tick s now env).releaseCalled = true := by
    rcases herr with hq | ⟨hne, he⟩
    · simp [tick, hrun, hlock, hq, hfail]
    · by_cases hq : env.queryOk = false
      · simp [tick, hrun, hlock, hq, hfail]
      · rcases he with he | hu
        · simp [tick, hrun, hlock, hq, hne, he, hfail]
        · by_cases he' : env.enqueueOk = false
          · simp [tick, hrun, hlock, hq, hne, he', hfail]
          · simp [tick, hrun, hlock, hq, hne, he', hu, hfail]
  refine ⟨by rw [hstate.1], by rw [hstate.1], hstate.2, ?_⟩
  intro now' env'
  exact tick_not_running _ now' env' (by rw [hstate.1])

/-- Witness for C5: the 10th consecutive failure (query throws) at
concrete inputs disables the loop, and a later tick is inert. -/
theorem C5_threshold_disables_witness :
    (tick ⟨true, true, 9, none⟩ 0 ⟨true, false, [], true, true⟩).state.isRunning = false ∧
    (tick ⟨true, true, 9, none⟩ 0 ⟨true, false, [], true, true⟩).state.timerSet = false ∧
    (tick ⟨true, true, 9, none⟩ 0 ⟨true, false, [], true, true⟩).releaseCalled = true ∧
    tick (tick ⟨true, true, 9, none⟩ 0 ⟨true, false, [], true, true⟩).state 500
        ⟨true, true, [⟨"s1", "u1", 6, 0⟩], true, true⟩ =
      ⟨(tick ⟨true, true, 9, none⟩ 0 ⟨true, false, [], true, true⟩).state,
        [], [], false, false⟩ := by
  have h := C5_threshold_disables ⟨true, true, 9, none⟩ 0 ⟨true, false, [], true, true⟩
      rfl rfl rfl (Or.inl rfl)
  exact ⟨h.1, h.2.1, h.2.2.1, h.2.2.2 500 ⟨true, true, [⟨"s1", "u1", 6, 0⟩], true, true⟩⟩

/-- C7: `triggerManualRun` for an id/owner pair with no matching search
yields the not-found error, dispatches nothing, and leaves the search
store unchanged; moreover for every input it leaves the search store
unchanged (it never writes `schedule.nextRun` or `lastRunAt`). -/
theorem C7_manual_not_found (store : List WorkItem) (sid uid : String)
    (enqOk : Bool) (mid : String) (h : getSearch store sid uid = none) :
    (triggerManualRun store sid uid enqOk mid).1 = ManualOutcome.notFound ∧
    (triggerManualRun store sid uid enqOk mid).2.1 = [] ∧
    (triggerManualRun store sid uid enqOk mid).2.2 = store ∧
    (∀ (store' : List WorkItem) (sid' uid' : String) (e' : Bool) (m' : String),
      (triggerManualRun store' sid' uid' e' m').2.2 = store') := by
  refine ⟨?_, ?_, ?_, ?_⟩
  · simp [triggerManualRun, h]
  · simp [triggerManualRun, h]
  · simp [triggerManualRun, h]
  · intro store' sid' uid' e' m'
    cases h' : getSearch store' sid' uid' <;> cases e' <;>
      simp [triggerManualRun, h']

/-- Witness for C7: an unknown search id over a one-element store. -/
theorem C7_manual_not_found_witness :
    (triggerManualRun [⟨"s1", "u1", 6, 0⟩] "s2" "u1" true "m1").1
        = ManualOutcome.notFound ∧
    (triggerManualRun [⟨"s1", "u1", 6, 0⟩] "s2" "u1" true "m1").2.1 = [] ∧
    (triggerManualRun [⟨"s1", "u1", 6, 0⟩] "s2" "u1" true "m1").2.2
        = [⟨"s1", "u1", 6, 0⟩] ∧
    (∀ (store' : List WorkItem) (sid' uid' : String) (e' : Bool) (m' : String),
      (triggerManualRun store' sid' uid' e' m').2.2 = store') :=
  C7_manual_not_found [⟨"s1", "u1", 6, 0⟩] "s2" "u1" true "m1" (by decide)

end VacationMonitor
